import Mathlib

/-!
Shallow embedding of the 3D sensor-viewer core of `src/src/App.jsx`
(the `AircraftViewer3D` component and its helpers), together with
theorems settling the specification claims about it.

Conventions of the embedding:
* JS numbers that only ever hold exact decimal constants and linear
  combinations of them are modelled as rationals (`ℚ`); integer risk
  scores are modelled as `ℤ`.
* A JS value that may be `undefined` is modelled as an `Option`.
* Code that can throw is modelled in `Except String`.
* The THREE.js ray caster is abstracted as an oracle function from
  screen coordinates to the optional id of the nearest hit marker;
  coordinates that are `NaN` (arithmetic on `undefined`) are modelled
  as `none`, and a ray cast from such coordinates hits nothing, since
  every numeric comparison against NaN is false.
-/

namespace Aerosense

/-! ### Risk classification (App.jsx lines 25-28) -/

/-- `const clamp = (v, min, max) => Math.min(Math.max(v, min), max);` -/
def clamp (v lo hi : ℚ) : ℚ := min (max v lo) hi

/-- The three risk bands used everywhere risk is displayed. -/
inductive RiskClass where
  | nominal
  | watch
  | critical
deriving DecidableEq, Repr

/-- Severity rank of a band, used to state monotonicity. -/
def RiskClass.severity : RiskClass → ℕ
  | .nominal => 0
  | .watch => 1
  | .critical => 2

/-- The band-selection structure shared by the three display functions:
`r < 30 ? nominal : r < 60 ? watch : critical`. -/
def classification (r : ℤ) : RiskClass :=
  if r < 30 then .nominal else if r < 60 then .watch else .critical

/-- `const RISK_COLOR = (r) => (r < 30 ? "#00e5c0" : r < 60 ? "#f5a623" : "#ff3b5c");` -/
def RISK_COLOR (r : ℤ) : String :=
  if r < 30 then "#00e5c0" else if r < 60 then "#f5a623" else "#ff3b5c"

/-- `const RISK_COLOR_HEX = (r) => (r < 30 ? 0x00e5c0 : r < 60 ? 0xf5a623 : 0xff3b5c);` -/
def RISK_COLOR_HEX (r : ℤ) : ℕ :=
  if r < 30 then 0x00e5c0 else if r < 60 then 0xf5a623 else 0xff3b5c

/-- `const RISK_LABEL = (r) => (r < 30 ? "NOMINAL" : r < 60 ? "WATCH" : "CRITICAL");` -/
def RISK_LABEL (r : ℤ) : String :=
  if r < 30 then "NOMINAL" else if r < 60 then "WATCH" else "CRITICAL"

/-! ### C1 theorem -/

/-- C1. Risk classification is a pure total function of the integer risk
score: for every `r`, `classification r` is nominal iff `r < 30`, watch iff
`30 ≤ r < 60`, critical iff `60 ≤ r`; the bands are mutually exclusive and
exhaustive over all of `ℤ` (hence they partition `[0,99]` with no gaps),
classification is monotone in `r`, and the three display functions
`RISK_COLOR` (marker/badge CSS color), `RISK_COLOR_HEX` (marker tint) and
`RISK_LABEL` (textual label) agree with `classification` on every band
boundary for every `r`. -/
theorem risk_classification_bands (r s : ℤ) :
    (classification r = .nominal ↔ r < 30) ∧
    (classification r = .watch ↔ 30 ≤ r ∧ r < 60) ∧
    (classification r = .critical ↔ 60 ≤ r) ∧
    (r ≤ s → (classification r).severity ≤ (classification s).severity) ∧
    (RISK_COLOR r = "#00e5c0" ↔ classification r = .nominal) ∧
    (RISK_COLOR r = "#f5a623" ↔ classification r = .watch) ∧
    (RISK_COLOR r = "#ff3b5c" ↔ classification r = .critical) ∧
    (RISK_COLOR_HEX r = 0x00e5c0 ↔ classification r = .nominal) ∧
    (RISK_COLOR_HEX r = 0xf5a623 ↔ classification r = .watch) ∧
    (RISK_COLOR_HEX r = 0xff3b5c ↔ classification r = .critical) ∧
    (RISK_LABEL r = "NOMINAL" ↔ classification r = .nominal) ∧
    (RISK_LABEL r = "WATCH" ↔ classification r = .watch) ∧
    (RISK_LABEL r = "CRITICAL" ↔ classification r = .critical) := by
  unfold classification RISK_COLOR RISK_COLOR_HEX RISK_LABEL RiskClass.severity
  by_cases h1 : r < 30 <;> by_cases h2 : r < 60 <;>
    by_cases h3 : s < 30 <;> by_cases h4 : s < 60 <;>
    simp [h1, h2, h3, h4] <;> omega

/-- Witness for C1: monotonicity hypothesis discharged at `r = 10 ≤ 70 = s`. -/
theorem risk_classification_bands_witness :
    (10 : ℤ) ≤ 70 ∧ (classification 10).severity ≤ (classification 70).severity :=
  ⟨by decide, (risk_classification_bands 10 70).2.2.2.1 (by decide)⟩

/-! ### Pointer/touch interaction (App.jsx lines 575-633)

The handlers close over `isDragging, dragDist, lastX, lastY, velX` and over
the aircraft group rotation; we gather all of them, plus the hover/selection
state, into one record. The THREE.js ray cast against the marker core meshes
is abstracted as an oracle `rc : ℚ → ℚ → Option String` returning the id of
the nearest hit marker (or `none`). -/

/-- One entry of a DOM `TouchList` (its `clientX` / `clientY`). -/
structure Touch where
  clientX : ℚ
  clientY : ℚ
deriving DecidableEq

/-- A DOM event as seen by the handlers. Mouse events have `touches = none`
(the property is absent, i.e. falsy); touch events carry their possibly empty
`touches` list (an empty `TouchList` object is still truthy). -/
structure PointerEvent where
  touches : Option (List Touch)
  clientX : ℚ
  clientY : ℚ
deriving DecidableEq

/-- The mount's bounding rectangle origin (`r.left`, `r.top`). -/
structure Rect where
  left : ℚ
  top : ℚ
deriving DecidableEq

/-- `getXY`: `e.touches ? e.touches[0]?.clientX : e.clientX` minus the mount
rect offset. `e.touches[0]?.clientX` is `undefined` when the touch list is
empty (as on a final `touchend`), and `undefined - r.left` is `NaN`; both
are modelled as `none`. -/
def getXY (rect : Rect) (e : PointerEvent) : Option ℚ × Option ℚ :=
  match e.touches with
  | some ts => ((ts.head?.map Touch.clientX).map (fun x => x - rect.left),
                (ts.head?.map Touch.clientY).map (fun y => y - rect.top))
  | none => (some (e.clientX - rect.left), some (e.clientY - rect.top))

/-- A ray cast whose origin coordinates are `NaN` intersects nothing, since
every numeric comparison against `NaN` is false; on well-defined coordinates
it defers to the oracle. -/
def raycastOpt (rc : ℚ → ℚ → Option String) :
    Option ℚ × Option ℚ → Option String
  | (some x, some y) => rc x y
  | _ => none

/-- The mutable state closed over by the interaction handlers, together with
the aircraft group rotation and the hover/selection state they write. -/
structure GestureState where
  isDragging : Bool
  dragDist : ℚ
  lastX : ℚ
  lastY : ℚ
  velX : ℚ
  rotX : ℚ
  rotY : ℚ
  hoveredId : Option String
  selected : Option String
deriving DecidableEq

/-- State at mount: a fresh THREE.Group has zero rotation, and the handler
closure variables start as `isDragging=false, dragDist=0, lastX=0, lastY=0,
velX=0`; nothing is hovered or selected. -/
def initGesture : GestureState :=
  { isDragging := false, dragDist := 0, lastX := 0, lastY := 0,
    velX := 0, rotX := 0, rotY := 0, hoveredId := none, selected := none }

/-- `onDown`: start a gesture, reset the accumulated distance counter. -/
def onDown (s : GestureState) (x y : ℚ) : GestureState :=
  { s with isDragging := true, dragDist := 0, lastX := x, lastY := y }

/-- `onMove`: while dragging, accumulate `|dx|+|dy|` into `dragDist`, apply
the deltas to the rotation (`rotX` through `clamp`), and reseed `velX`; on
mouse events (only) recompute the hover hit-test. Move events always carry
well-defined coordinates: `mousemove` has `clientX/Y` and `touchmove` always
has at least one active touch. -/
def onMove (rc : ℚ → ℚ → Option String) (isTouch : Bool)
    (s : GestureState) (cx cy : ℚ) : GestureState :=
  let s1 :=
    if s.isDragging then
      let dx := cx - s.lastX
      let dy := cy - s.lastY
      { s with
        dragDist := s.dragDist + |dx| + |dy|
        rotY := s.rotY + dx * (12/1000)
        rotX := clamp (s.rotX + dy * (6/1000)) (-(7/10)) (7/10)
        velX := dx * (12/1000)
        lastX := cx
        lastY := cy }
    else s
  if isTouch then s1 else { s1 with hoveredId := rc cx cy }

/-- `onUp`: if the accumulated distance is below the tap threshold 6, ray
cast from the release coordinates and set the selection to the hit (or clear
it); otherwise leave the selection untouched. Always stop dragging. -/
def onUp (rc : ℚ → ℚ → Option String) (rect : Rect)
    (s : GestureState) (e : PointerEvent) : GestureState :=
  let s1 :=
    if s.dragDist < 6 then { s with selected := raycastOpt rc (getXY rect e) }
    else s
  { s1 with isDragging := false }

/-- The pointer/touch events a gesture run is made of. -/
inductive PtrEvent where
  | down (x y : ℚ)
  | move (isTouch : Bool) (x y : ℚ)
  | up (e : PointerEvent)

/-- Dispatch one event to its handler. -/
def stepGesture (rc : ℚ → ℚ → Option String) (rect : Rect)
    (s : GestureState) : PtrEvent → GestureState
  | .down x y => onDown s x y
  | .move tch x y => onMove rc tch s x y
  | .up e => onUp rc rect s e

/-- Run a sequence of pointer/touch events from the mount state. -/
def runGesture (rc : ℚ → ℚ → Option String) (rect : Rect)
    (evs : List PtrEvent) : GestureState :=
  evs.foldl (stepGesture rc rect) initGesture

/-! ### C2 theorem -/

/-- C2. Drag-vs-tap disambiguation on release: when the accumulated
pointer-move distance counter is at or above the tap threshold (6), `onUp`
never changes the selection, whatever the release position; when it is below
the threshold, the selection is set to the result of the ray cast from the
release coordinates — for a mouse release this means the id of the hit
marker when the oracle reports a hit, and `none` (cleared) when it reports
no hit. -/
theorem drag_vs_tap_selection (rc : ℚ → ℚ → Option String) (rect : Rect)
    (s : GestureState) (e : PointerEvent) :
    (6 ≤ s.dragDist → (onUp rc rect s e).selected = s.selected) ∧
    (s.dragDist < 6 →
      (onUp rc rect s e).selected = raycastOpt rc (getXY rect e)) ∧
    (s.dragDist < 6 → e.touches = none →
      (∀ i, rc (e.clientX - rect.left) (e.clientY - rect.top) = some i →
          (onUp rc rect s e).selected = some i) ∧
      (rc (e.clientX - rect.left) (e.clientY - rect.top) = none →
          (onUp rc rect s e).selected = none)) := by
  refine ⟨fun h => ?_, fun h => ?_, fun h ht => ⟨fun i hi => ?_, fun hn => ?_⟩⟩ <;>
    simp only [onUp, getXY, raycastOpt]
  · rw [if_neg (by exact not_lt.mpr h)]
  · rw [if_pos h]
  · rw [if_pos h]
    simp only [ht, hi]
  · rw [if_pos h]
    simp only [ht, hn]

/-- Witness for C2: a sub-threshold mouse release over a marker selects it. -/
theorem drag_vs_tap_selection_witness :
    initGesture.dragDist < 6 ∧
    (onUp (fun _ _ => some "eng1") ⟨0, 0⟩ initGesture ⟨none, 5, 5⟩).selected
      = raycastOpt (fun _ _ => some "eng1") (getXY ⟨0, 0⟩ ⟨none, 5, 5⟩) :=
  ⟨by norm_num [initGesture],
   (drag_vs_tap_selection (fun _ _ => some "eng1") ⟨0, 0⟩ initGesture
      ⟨none, 5, 5⟩).2.1 (by norm_num [initGesture])⟩

/-! ### C4 theorem -/

/-- `clamp` really lands in `[lo, hi]` whenever `lo ≤ hi`. -/
theorem clamp_mem_Icc (v lo hi : ℚ) (h : lo ≤ hi) :
    lo ≤ clamp v lo hi ∧ clamp v lo hi ≤ hi := by
  unfold clamp
  constructor
  · exact le_min (le_max_right v lo) h
  · exact min_le_right _ _

/-- `onMove` either clamps `rotX` (while dragging) or leaves it unchanged. -/
theorem onMove_rotX (rc : ℚ → ℚ → Option String) (tch : Bool)
    (s : GestureState) (cx cy : ℚ) :
    (onMove rc tch s cx cy).rotX =
      if s.isDragging then
        clamp (s.rotX + (cy - s.lastY) * (6/1000)) (-(7/10)) (7/10)
      else s.rotX := by
  unfold onMove
  cases tch <;> by_cases hd : s.isDragging <;> simp [hd]

/-- `onUp` never touches `rotX`. -/
theorem onUp_rotX (rc : ℚ → ℚ → Option String) (rect : Rect)
    (s : GestureState) (e : PointerEvent) :
    (onUp rc rect s e).rotX = s.rotX := by
  unfold onUp
  by_cases hd : s.dragDist < 6 <;> simp [hd]

/-- The `rotX ∈ [-0.7, 0.7]` invariant is preserved by every handler. -/
theorem stepGesture_rotX_inv (rc : ℚ → ℚ → Option String) (rect : Rect)
    (s : GestureState) (ev : PtrEvent)
    (h : -(7/10) ≤ s.rotX ∧ s.rotX ≤ 7/10) :
    -(7/10) ≤ (stepGesture rc rect s ev).rotX ∧
      (stepGesture rc rect s ev).rotX ≤ 7/10 := by
  cases ev with
  | down x y => exact h
  | move tch x y =>
      show -(7/10) ≤ (onMove rc tch s x y).rotX ∧ (onMove rc tch s x y).rotX ≤ 7/10
      rw [onMove_rotX]
      by_cases hd : s.isDragging
      · rw [if_pos hd]
        exact clamp_mem_Icc _ _ _ (by norm_num)
      · rw [if_neg hd]
        exact h
  | up e =>
      show -(7/10) ≤ (onUp rc rect s e).rotX ∧ (onUp rc rect s e).rotX ≤ 7/10
      rw [onUp_rotX]
      exact h

/-- C4. `rotationX` of the aircraft root transform is invariant-bounded:
starting from the initial orientation, after every sequence of pointer/touch
events (each drag move applying its vertical delta at the linear scale 0.006
through `clamp`), `rotX` lies in `[-0.7, 0.7]`; since this holds for every
event list, it holds at all intermediate times as well. -/
theorem rotationX_always_clamped (rc : ℚ → ℚ → Option String) (rect : Rect)
    (evs : List PtrEvent) :
    -(7/10) ≤ (runGesture rc rect evs).rotX ∧
      (runGesture rc rect evs).rotX ≤ 7/10 := by
  unfold runGesture
  have main : ∀ (l : List PtrEvent) (s : GestureState),
      -(7/10) ≤ s.rotX ∧ s.rotX ≤ 7/10 →
      -(7/10) ≤ (l.foldl (stepGesture rc rect) s).rotX ∧
        (l.foldl (stepGesture rc rect) s).rotX ≤ 7/10 := by
    intro l
    induction l with
    | nil => intro s h; exact h
    | cons ev rest ih =>
        intro s h
        exact ih _ (stepGesture_rotX_inv rc rect s ev h)
  exact main evs initGesture (by norm_num [initGesture])

/-! ### C10 theorem -/

/-- C10 (implicit). On a touch device, a `touchend` that ends a
sub-threshold (tap) gesture always clears the selection and can never select
a marker: the release coordinates are read from the event's `touches` list,
which is empty on `touchend`, so both coordinates are `undefined`/`NaN` and
the ray cast hits nothing — whatever the ray-cast oracle would report at any
well-defined point. -/
theorem touch_tap_never_selects (rc : ℚ → ℚ → Option String) (rect : Rect)
    (s : GestureState) (e : PointerEvent)
    (hTap : s.dragDist < 6) (hTouchEnd : e.touches = some []) :
    (onUp rc rect s e).selected = none := by
  simp only [onUp, if_pos hTap, getXY, hTouchEnd]
  rfl

/-- Witness for C10: a touch tap right on top of a marker (the oracle would
report a hit anywhere) still clears the selection. -/
theorem touch_tap_never_selects_witness :
    initGesture.dragDist < 6 ∧
    (⟨some [], 5, 5⟩ : PointerEvent).touches = some [] ∧
    (onUp (fun _ _ => some "eng1") ⟨0, 0⟩ initGesture
      ⟨some [], 5, 5⟩).selected = none :=
  ⟨by norm_num [initGesture], rfl,
   touch_tap_never_selects (fun _ _ => some "eng1") ⟨0, 0⟩ initGesture
     ⟨some [], 5, 5⟩ (by norm_num [initGesture]) rfl⟩

/-! ### Sensor marker construction (App.jsx lines 544-573)

`SENSORS_3D.forEach((sensor)=>{ ... glow.position.set(...sensor.pos) ... })`
builds a glow shell and a core per record. There is no guard on the record's
fields: spreading an `undefined` `pos` throws a `TypeError`, which propagates
out of `forEach` and aborts the whole construction. A missing `id` throws
nothing at construction time (it is only stored in `userData`). -/

/-- A raw sensor record as consumed by the marker loop; `id` and `pos` may
be absent (`undefined`). -/
structure SensorRecord where
  id : Option String
  pos : Option (ℚ × ℚ × ℚ)
  risk : ℤ
deriving DecidableEq

/-- The observable result of building one marker: the glow/core pair placed
at the record's position, tinted by its risk, with the core's `userData`
back-reference to the record's id, plus the connector stroke on
non-constrained devices. -/
structure Marker where
  sensorId : Option String
  colorHex : ℕ
  pos : ℚ × ℚ × ℚ
  hasConnector : Bool
deriving DecidableEq

/-- One iteration of the marker loop. `RISK_COLOR_HEX(sensor.risk)` is
computed first (total), then `glow.position.set(...sensor.pos)` throws a
`TypeError` when `pos` is `undefined`; otherwise the marker is built — even
when `id` is missing. -/
def buildMarker (isMobile : Bool) (s : SensorRecord) : Except String Marker :=
  match s.pos with
  | none => .error "TypeError: undefined is not iterable"
  | some p =>
      .ok { sensorId := s.id, colorHex := RISK_COLOR_HEX s.risk, pos := p,
            hasConnector := !isMobile }

/-- The `forEach` over the sensor list: an exception thrown on one record
aborts the loop, so no marker is built for any subsequent record. -/
def buildMarkers (isMobile : Bool) : List SensorRecord → Except String (List Marker)
  | [] => .ok []
  | s :: rest =>
      match buildMarker isMobile s with
      | .error msg => .error msg
      | .ok m =>
          match buildMarkers isMobile rest with
          | .error msg => .error msg
          | .ok ms => .ok (m :: ms)

/-- A record missing its required `pos` field. -/
def badRecord : SensorRecord := { id := some "ghost", pos := none, risk := 50 }

/-- A well-formed record (the first EK205 sensor). -/
def goodRecord : SensorRecord :=
  { id := some "eng1", pos := some (-(17/10), -(6/10), 5/10), risk := 18 }

/-! ### C3: counterexample and amended theorem -/

/-- Counterexample to C3. On the concrete input `[badRecord, goodRecord]`
(one record missing `pos`, followed by a well-formed record), marker
construction does not skip the malformed record and build the remaining
marker: it aborts with a `TypeError`, and in particular returns no marker
list at all — while the well-formed record alone would build its marker. -/
theorem malformed_record_not_skipped :
    buildMarkers false [badRecord, goodRecord]
        = Except.error "TypeError: undefined is not iterable" ∧
    (buildMarkers false [badRecord, goodRecord]).isOk = false ∧
    buildMarkers false [goodRecord]
        = Except.ok [{ sensorId := some "eng1", colorHex := 0x00e5c0,
                       pos := (-(17/10), -(6/10), 5/10), hasConnector := true }] :=
  ⟨rfl, rfl, rfl⟩

/-- C3 as amended: marker construction performs no malformed-record
filtering. When every record carries a `pos`, it builds exactly one marker
per record, in order, each carrying its record's (possibly missing) id — in
particular a record missing only its `id` is *not* skipped; a record missing
`pos` instead throws, aborting construction of the whole marker layer (shown
by `malformed_record_not_skipped`). -/
theorem markers_one_per_record (b : Bool) (sensors : List SensorRecord)
    (p : ℚ × ℚ × ℚ) (r : ℤ)
    (h : ∀ s ∈ sensors, s.pos ≠ none) :
    (∃ ms, buildMarkers b sensors = Except.ok ms ∧
       ms.length = sensors.length ∧
       ms.map Marker.sensorId = sensors.map SensorRecord.id) ∧
    buildMarkers b [{ id := none, pos := some p, risk := r }]
        = Except.ok [{ sensorId := none, colorHex := RISK_COLOR_HEX r,
                       pos := p, hasConnector := !b }] := by
  constructor
  · induction sensors with
    | nil => exact ⟨[], rfl, rfl, rfl⟩
    | cons s rest ih =>
        obtain ⟨ms, hms, hlen, hmap⟩ :=
          ih (fun t ht => h t (List.mem_cons_of_mem s ht))
        have hp := h s (List.mem_cons_self s rest)
        cases hpos : s.pos with
        | none => exact absurd hpos hp
        | some q =>
            refine ⟨{ sensorId := s.id, colorHex := RISK_COLOR_HEX s.risk,
                      pos := q, hasConnector := !b } :: ms, ?_, ?_, ?_⟩
            · simp only [buildMarkers, buildMarker, hpos, hms]
            · simp [hlen]
            · simp [hmap]
  · rfl

/-- Witness for the amended C3: a two-record well-formed list builds two
markers, and a record with no id still gets its marker. -/
theorem markers_one_per_record_witness :
    (∀ s ∈ [goodRecord, goodRecord], s.pos ≠ none) ∧
    ((∃ ms, buildMarkers false [goodRecord, goodRecord] = Except.ok ms ∧
        ms.length = [goodRecord, goodRecord].length ∧
        ms.map Marker.sensorId = [goodRecord, goodRecord].map SensorRecord.id) ∧
     buildMarkers false [{ id := none, pos := some (0, 0, 0), risk := 7 }]
        = Except.ok [{ sensorId := none, colorHex := RISK_COLOR_HEX 7,
                       pos := (0, 0, 0), hasConnector := true }]) :=
  ⟨by intro s hs; fin_cases hs <;> simp [goodRecord],
   markers_one_per_record false [goodRecord, goodRecord] (0, 0, 0) 7
     (by intro s hs; fin_cases hs <;> simp [goodRecord])⟩

/-! ### Animation-loop idle decay (App.jsx lines 650-654)

```
if(!isDragging){
  aircraft.rotation.y += velX*0.94;
  velX *= 0.94;
  aircraft.rotation.y += isMobile ? 0.0015 : 0.0025;
}
```
-/

/-- The small constant idle-rotation increment added to `rotation.y` on
every non-dragging step. -/
def idleRotIncrement (isMobile : Bool) : ℚ :=
  if isMobile then 15/10000 else 25/10000

/-- One non-dragging animation step acting on `(rotation.y, velX)`. -/
def animStepRot (isMobile : Bool) (s : ℚ × ℚ) : ℚ × ℚ :=
  (s.1 + s.2 * (94/100) + idleRotIncrement isMobile, s.2 * (94/100))

/-- The residual angular velocity after `n` animation steps with no further
pointer input, starting from `(r0, v0)` at drag release. -/
def velAfter (isMobile : Bool) (r0 v0 : ℚ) (n : ℕ) : ℚ :=
  ((animStepRot isMobile)^[n] (r0, v0)).2

/-- Closed form: the velocity decays geometrically with ratio 0.94. -/
theorem velAfter_eq (m : Bool) (r0 v0 : ℚ) (n : ℕ) :
    velAfter m r0 v0 n = v0 * (94/100) ^ n := by
  induction n with
  | zero => simp [velAfter]
  | succ k ih =>
      unfold velAfter at ih ⊢
      rw [Function.iterate_succ_apply']
      show ((animStepRot m) ((animStepRot m)^[k] (r0, v0))).2 = _
      rw [animStepRot]
      rw [ih]
      ring

/-- C5. Post-release inertia decay: with no further pointer input, the
residual angular velocity after `n` animation steps equals `v0 * 0.94 ^ n`
exactly (rational arithmetic); its magnitude is monotonically decreasing —
strictly so for `v0 ≠ 0` — it approaches zero (below any `ε > 0` from some
step on), and it never reverses sign; moreover each non-dragging step adds
to `rotation.y` the velocity contribution plus the strictly positive
constant idle-rotation increment, so rotation never fully stops. -/
theorem idle_decay_geometric (m : Bool) (r0 v0 : ℚ) (n : ℕ) :
    (velAfter m r0 v0 n = v0 * (94/100) ^ n) ∧
    (|velAfter m r0 v0 (n+1)| ≤ |velAfter m r0 v0 n|) ∧
    (v0 ≠ 0 → |velAfter m r0 v0 (n+1)| < |velAfter m r0 v0 n|) ∧
    (0 ≤ v0 * velAfter m r0 v0 n) ∧
    (∀ ε : ℚ, 0 < ε → ∃ N, ∀ k, N ≤ k → |velAfter m r0 v0 k| < ε) ∧
    (((animStepRot m)^[n+1] (r0, v0)).1
        = ((animStepRot m)^[n] (r0, v0)).1
            + velAfter m r0 v0 n * (94/100) + idleRotIncrement m) ∧
    0 < idleRotIncrement m := by
  have habs : ∀ k, |velAfter m r0 v0 k| = |v0| * (94/100) ^ k := by
    intro k
    rw [velAfter_eq, abs_mul, abs_pow, abs_of_pos (by norm_num : (0:ℚ) < 94/100)]
  refine ⟨velAfter_eq m r0 v0 n, ?_, ?_, ?_, ?_, ?_, ?_⟩
  · rw [habs, habs, pow_succ]
    have h0 : (0:ℚ) ≤ |v0| * (94/100) ^ n := by positivity
    nlinarith
  · intro hv
    rw [habs, habs, pow_succ]
    have h0 : (0:ℚ) < |v0| * (94/100) ^ n := by
      have : (0:ℚ) < |v0| := abs_pos.mpr hv
      positivity
    nlinarith
  · rw [velAfter_eq]
    have : v0 * (v0 * (94/100) ^ n) = v0 ^ 2 * (94/100) ^ n := by ring
    rw [this]
    positivity
  · intro ε hε
    have hr1 : (94/100 : ℚ) < 1 := by norm_num
    have hv1 : (0:ℚ) < |v0| + 1 := by positivity
    obtain ⟨N, hN⟩ := exists_pow_lt_of_lt_one (div_pos hε hv1) hr1
    refine ⟨N, fun k hk => ?_⟩
    rw [habs]
    have hmono : ((94:ℚ)/100) ^ k ≤ (94/100) ^ N :=
      pow_le_pow_of_le_one (by norm_num) (by norm_num) hk
    calc |v0| * (94/100) ^ k
        ≤ |v0| * (94/100) ^ N := mul_le_mul_of_nonneg_left hmono (abs_nonneg v0)
      _ ≤ (|v0| + 1) * (94/100) ^ N := by
            have hp : (0:ℚ) ≤ (94/100) ^ N := by positivity
            nlinarith [abs_nonneg v0]
      _ < (|v0| + 1) * (ε / (|v0| + 1)) := mul_lt_mul_of_pos_left hN hv1
      _ = ε := by field_simp
  · rw [Function.iterate_succ_apply']
    rfl
  · cases m <;> norm_num [idleRotIncrement]

/-- Witness for C5: strict decrease and the approach to zero, instantiated
at `v0 = 1`, `ε = 1`. -/
theorem idle_decay_geometric_witness :
    (1:ℚ) ≠ 0 ∧ |velAfter false 0 1 2| < |velAfter false 0 1 1| ∧
    (0:ℚ) < 1 ∧ ∃ N, ∀ k, N ≤ k → |velAfter false 0 1 k| < 1 :=
  ⟨one_ne_zero, (idle_decay_geometric false 0 1 1).2.2.1 one_ne_zero, one_pos,
   (idle_decay_geometric false 0 1 0).2.2.2.2.1 1 one_pos⟩

/-! ### Device profile (App.jsx lines 356-359, 426, 449, 513, 526, 549,
567, 636-638, 649, 653, 659)

`const isMobile = /iPhone|iPad|iPod|Android/i.test(navigator.userAgent)
|| window.innerWidth < 768;` — every capability choice in the viewer
branches on this one boolean, gathered here into a profile record. -/

/-- The alternatives of the handheld user-agent regex, lower-cased. -/
def HANDHELD_PATTERNS : List (List Char) :=
  [['i','p','h','o','n','e'], ['i','p','a','d'], ['i','p','o','d'],
   ['a','n','d','r','o','i','d']]

/-- Whether `p` occurs as a contiguous substring of the second list. -/
def hasInfix (p : List Char) : List Char → Bool
  | [] => p.isEmpty
  | c :: rest => p.isPrefixOf (c :: rest) || hasInfix p rest

/-- Case-insensitive substring test modelling
`/iPhone|iPad|iPod|Android/i.test(ua)`. -/
def uaMatchesHandheld (ua : List Char) : Bool :=
  HANDHELD_PATTERNS.any (fun p => hasInfix p (ua.map Char.toLower))

/-- The rendering-capability choices the viewer derives from the device
signals at mount. -/
structure DeviceProfile where
  isConstrained : Bool
  pixelDensityCap : ℚ
  geometryDetail : ℕ
  engineDetail : ℕ
  sensorDetail : ℕ
  antialias : Bool
  pitotEnabled : Bool
  intakeLipEnabled : Bool
  apuExhaustEnabled : Bool
  connectorStrokesEnabled : Bool
  targetFPS : ℕ
  frameInterval : ℚ
  tIncrement : ℚ
  animSpeed : ℚ
  idleIncrement : ℚ
deriving DecidableEq

/-- All capability branches of the viewer, as a function of the signals
they inspect: viewport width, user agent, device pixel ratio. Every field
value is the constant from the corresponding source line. -/
def resolveProfile (innerWidth : ℕ) (ua : List Char) (dpr : ℚ) : DeviceProfile :=
  let isMobile := uaMatchesHandheld ua || decide (innerWidth < 768)
  { isConstrained := isMobile
    pixelDensityCap := if isMobile then min dpr (12/10) else min dpr 2
    geometryDetail := if isMobile then 12 else 24
    engineDetail := if isMobile then 12 else 20
    sensorDetail := if isMobile then 8 else 14
    antialias := !isMobile
    pitotEnabled := !isMobile
    intakeLipEnabled := !isMobile
    apuExhaustEnabled := !isMobile
    connectorStrokesEnabled := !isMobile
    targetFPS := if isMobile then 30 else 60
    frameInterval := 1000 / (if isMobile then (30:ℚ) else 60)
    tIncrement := if isMobile then 24/1000 else 16/1000
    animSpeed := if isMobile then 15/10 else 25/10
    idleIncrement := if isMobile then 15/10000 else 25/10000 }

/-- The profile a constrained device resolves to, as one record literal. -/
theorem resolveProfile_eq_of_constrained (w : ℕ) (ua : List Char) (dpr : ℚ)
    (hb : (uaMatchesHandheld ua || decide (w < 768)) = true) :
    resolveProfile w ua dpr =
      ⟨true, min dpr (12/10), 12, 12, 8, false, false, false, false, false,
       30, 1000/30, 24/1000, 15/10, 15/10000⟩ := by
  simp [resolveProfile, hb]

/-- The profile an unconstrained device resolves to, as one record literal. -/
theorem resolveProfile_eq_of_unconstrained (w : ℕ) (ua : List Char) (dpr : ℚ)
    (hb : (uaMatchesHandheld ua || decide (w < 768)) = false) :
    resolveProfile w ua dpr =
      ⟨false, min dpr 2, 24, 20, 14, true, true, true, true, true,
       60, 1000/60, 16/1000, 25/10, 25/10000⟩ := by
  simp [resolveProfile, hb]

/-! ### C6 theorem -/

/-- C6. Device profile resolution: a device is constrained iff its viewport
width is below 768 or its user agent matches a handheld pattern; a
constrained mount gets the pixel-density cap lowered (1.2 vs 2), geometry
tessellation halved (12 vs 24 segments), all fine-detail cosmetic parts
(pitot, intake lip ring, connector strokes, APU exhaust) disabled, and a
frame interval corresponding to 30 fps — an unconstrained mount gets the
24-segment geometry, the parts enabled and 60 fps; and resolution is a
deterministic function of the device signals. -/
theorem device_profile_resolution (w : ℕ) (ua : List Char) (dpr : ℚ) :
    ((resolveProfile w ua dpr).isConstrained
        = (uaMatchesHandheld ua || decide (w < 768))) ∧
    ((resolveProfile w ua dpr).isConstrained = true →
        (resolveProfile w ua dpr).pixelDensityCap = min dpr (12/10) ∧
        (resolveProfile w ua dpr).pixelDensityCap ≤ min dpr 2 ∧
        (resolveProfile w ua dpr).geometryDetail = 12 ∧
        2 * (resolveProfile w ua dpr).geometryDetail = 24 ∧
        (resolveProfile w ua dpr).pitotEnabled = false ∧
        (resolveProfile w ua dpr).intakeLipEnabled = false ∧
        (resolveProfile w ua dpr).connectorStrokesEnabled = false ∧
        (resolveProfile w ua dpr).apuExhaustEnabled = false ∧
        (resolveProfile w ua dpr).targetFPS = 30 ∧
        (resolveProfile w ua dpr).frameInterval = 1000 / 30) ∧
    ((resolveProfile w ua dpr).isConstrained = false →
        (resolveProfile w ua dpr).pixelDensityCap = min dpr 2 ∧
        (resolveProfile w ua dpr).geometryDetail = 24 ∧
        (resolveProfile w ua dpr).pitotEnabled = true ∧
        (resolveProfile w ua dpr).intakeLipEnabled = true ∧
        (resolveProfile w ua dpr).connectorStrokesEnabled = true ∧
        (resolveProfile w ua dpr).apuExhaustEnabled = true ∧
        (resolveProfile w ua dpr).targetFPS = 60 ∧
        (resolveProfile w ua dpr).frameInterval = 1000 / 60) ∧
    (∀ w2 ua2 dpr2, w = w2 → ua = ua2 → dpr = dpr2 →
        resolveProfile w ua dpr = resolveProfile w2 ua2 dpr2) := by
  refine ⟨rfl, fun hc => ?_, fun hc => ?_,
    fun w2 ua2 dpr2 h1 h2 h3 => by subst h1; subst h2; subst h3; rfl⟩
  · rw [resolveProfile_eq_of_constrained w ua dpr hc]
    exact ⟨rfl, min_le_min le_rfl (by norm_num), rfl, rfl, rfl, rfl, rfl,
      rfl, rfl, rfl⟩
  · rw [resolveProfile_eq_of_unconstrained w ua dpr hc]
    exact ⟨rfl, rfl, rfl, rfl, rfl, rfl, rfl, rfl⟩

/-- Witness for C6: a 400-pixel-wide viewport resolves to a constrained
profile with halved geometry and a 30 fps target. -/
theorem device_profile_resolution_witness :
    (resolveProfile 400 [] 2).isConstrained = true ∧
    (resolveProfile 400 [] 2).geometryDetail = 12 ∧
    (resolveProfile 400 [] 2).pitotEnabled = false ∧
    (resolveProfile 400 [] 2).targetFPS = 30 :=
  ⟨rfl,
   ((device_profile_resolution 400 [] 2).2.1 rfl).2.2.1,
   ((device_profile_resolution 400 [] 2).2.1 rfl).2.2.2.2.1,
   ((device_profile_resolution 400 [] 2).2.1 rfl).2.2.2.2.2.2.2.2.1⟩

/-! ### C7: counterexample and amended theorem -/

/-- Counterexample to C7. The time-accumulator increment
(`t += isMobile ? 0.024 : 0.016`, App.jsx line 649) is NOT smaller on
constrained devices: at viewport width 400 (constrained) it is 0.024,
versus 0.016 at width 1024 (unconstrained) — strictly larger. -/
theorem t_increment_not_smaller_on_constrained :
    (resolveProfile 400 [] 2).isConstrained = true ∧
    (resolveProfile 1024 [] 2).isConstrained = false ∧
    ¬ ((resolveProfile 400 [] 2).tIncrement
        < (resolveProfile 1024 [] 2).tIncrement) ∧
    (resolveProfile 1024 [] 2).tIncrement
        < (resolveProfile 400 [] 2).tIncrement := by
  rw [resolveProfile_eq_of_constrained 400 [] 2 (by decide),
      resolveProfile_eq_of_unconstrained 1024 [] 2 (by decide)]
  refine ⟨rfl, rfl, by norm_num, by norm_num⟩

/-- C7 as amended: in every executed animation step the monotonic time
accumulator advances by a strictly positive profile-dependent constant —
0.024 on constrained devices versus 0.016 on unconstrained ones, i.e.
*larger* (1.5x) on constrained devices, compensating the halved frame rate;
what is smaller on constrained devices is the marker phase-speed multiplier
`animSpeed` (1.5 vs 2.5). -/
theorem t_increment_profile (w w2 : ℕ) (ua ua2 : List Char) (dpr dpr2 : ℚ)
    (hc : (resolveProfile w ua dpr).isConstrained = true)
    (hu : (resolveProfile w2 ua2 dpr2).isConstrained = false) :
    (resolveProfile w ua dpr).tIncrement = 24/1000 ∧
    (resolveProfile w2 ua2 dpr2).tIncrement = 16/1000 ∧
    (resolveProfile w2 ua2 dpr2).tIncrement
        < (resolveProfile w ua dpr).tIncrement ∧
    (∀ t : ℚ, t < t + (resolveProfile w ua dpr).tIncrement) ∧
    (∀ t : ℚ, t < t + (resolveProfile w2 ua2 dpr2).tIncrement) ∧
    (resolveProfile w ua dpr).animSpeed
        < (resolveProfile w2 ua2 dpr2).animSpeed := by
  rw [resolveProfile_eq_of_constrained w ua dpr hc,
      resolveProfile_eq_of_unconstrained w2 ua2 dpr2 hu]
  refine ⟨rfl, rfl, by norm_num, fun t => by norm_num, fun t => by norm_num,
    by norm_num⟩

/-- Witness for C7's amended theorem at widths 400 (constrained) and 1024
(unconstrained). -/
theorem t_increment_profile_witness :
    (resolveProfile 400 [] 2).isConstrained = true ∧
    (resolveProfile 1024 [] 2).isConstrained = false ∧
    (resolveProfile 1024 [] 2).tIncrement
        < (resolveProfile 400 [] 2).tIncrement :=
  ⟨rfl, rfl,
   (t_increment_profile 400 1024 [] [] 2 2 rfl rfl).2.2.1⟩

/-! ### Marker visual emphasis tiers (App.jsx lines 655-664)

Per frame and marker: `m.scale.setScalar(isSel?1.6:isHov?1.3:p)` with
`p = 0.88 + 0.28*Math.sin(t*animSpeed + i*0.62)`, and analogous ternaries
for the core emissive intensity and the glow opacity. The argument `s`
stands for the sine value, which ranges over `[-1, 1]`. -/

/-- Per-frame marker scale tier. -/
def markerScale (isSel isHov : Bool) (s : ℚ) : ℚ :=
  if isSel then 16/10 else if isHov then 13/10 else 88/100 + 28/100 * s

/-- Per-frame core emissive-intensity tier. -/
def coreEmissive (isSel isHov : Bool) (s : ℚ) : ℚ :=
  if isSel then 13/10 else if isHov then 1 else 5/10 + 35/100 * s

/-- Per-frame glow opacity tier. -/
def glowOpacity (isSel isHov : Bool) (s : ℚ) : ℚ :=
  if isSel then 38/100 else if isHov then 26/100 else 8/100 + 7/100 * s

/-! ### C8 theorem -/

/-- C8. Visual-emphasis tier dominance: for every attainable sine value `s`
(every frame time and marker index yield some `s ∈ [-1, 1]`), the scale,
core emissive intensity and glow opacity of the selected tier strictly
exceed those of the hovered tier, and the hovered tier strictly exceeds the
ambient oscillating expression — in particular both fixed tiers strictly
exceed the maximum the ambient expression can ever attain. -/
theorem emphasis_tier_dominance (s s1 s2 : ℚ) (hv : Bool)
    (hlo : -1 ≤ s) (hhi : s ≤ 1) :
    markerScale false false s < markerScale false true s1 ∧
    markerScale false true s1 < markerScale true hv s2 ∧
    coreEmissive false false s < coreEmissive false true s1 ∧
    coreEmissive false true s1 < coreEmissive true hv s2 ∧
    glowOpacity false false s < glowOpacity false true s1 ∧
    glowOpacity false true s1 < glowOpacity true hv s2 := by
  simp only [markerScale, coreEmissive, glowOpacity, if_true, if_false,
    Bool.false_eq_true, ite_true, ite_false]
  refine ⟨by linarith, by linarith, by linarith, by linarith, by linarith,
    by linarith⟩

/-- Witness for C8 at the ambient maximum `s = 1`. -/
theorem emphasis_tier_dominance_witness :
    (-1 : ℚ) ≤ 1 ∧ (1 : ℚ) ≤ 1 ∧
    markerScale false false 1 < markerScale false true 0 ∧
    markerScale false true 0 < markerScale true false 0 :=
  ⟨by norm_num, le_refl 1,
   (emphasis_tier_dominance 1 0 0 false (by norm_num) (le_refl 1)).1,
   (emphasis_tier_dominance 1 0 0 false (by norm_num) (le_refl 1)).2.1⟩

/-! ### Viewer lifecycle and teardown (App.jsx lines 635-688)

The effect cleanup runs `cancelAnimationFrame(rafId)`, removes the five
pointer/touch listeners and the window resize listener, detaches the canvas
only when it is still a child (`if(mount.contains(renderer.domElement))
mount.removeChild(...)`), and disposes the renderer. The browser event loop
is modelled by a list of events: a frame callback only fires (renders and
reschedules) while a request is pending, and a window resize notification
only reaches `onResize` while the listener is registered. -/

/-- Observable lifecycle state of one mounted viewer. -/
structure ViewerState where
  rafPending : Bool
  pointerListeners : Bool
  resizeListener : Bool
  canvasAttached : Bool
  rendererDisposed : Bool
  framesRendered : ℕ
  viewW : ℚ
  viewH : ℚ
deriving DecidableEq

/-- State right after mount: `animate(0)` has rendered one frame and left a
pending frame request; everything is registered and attached. -/
def initViewer (w h : ℚ) : ViewerState :=
  { rafPending := true, pointerListeners := true, resizeListener := true,
    canvasAttached := true, rendererDisposed := false, framesRendered := 1,
    viewW := w, viewH := h }

/-- `mount.removeChild(renderer.domElement)`: throws a `NotFoundError` when
the canvas is not currently a child of the mount. -/
def removeCanvas (s : ViewerState) : Except String ViewerState :=
  if s.canvasAttached then .ok { s with canvasAttached := false }
  else .error "NotFoundError"

/-- The effect cleanup: cancel the pending frame request, remove all
registered listeners, detach the canvas only if still attached, dispose the
renderer. -/
def teardown (s : ViewerState) : Except String ViewerState :=
  let s1 := { s with rafPending := false, pointerListeners := false,
                     resizeListener := false }
  match (if s1.canvasAttached then removeCanvas s1 else .ok s1) with
  | .error msg => .error msg
  | .ok s2 => .ok { s2 with rendererDisposed := true }

/-- `onResize`: refit the camera aspect and renderer size to the container;
renders nothing and never throws. -/
def viewerResize (w h : ℚ) (s : ViewerState) : Except String ViewerState :=
  .ok { s with viewW := w, viewH := h }

/-- The `animate` callback only fires while a frame request is pending
(`cancelAnimationFrame` removed it otherwise); it renders and reschedules
itself, leaving the request pending. -/
def frameCallback (s : ViewerState) : ViewerState :=
  if s.rafPending then { s with framesRendered := s.framesRendered + 1 }
  else s

/-- Environment events after mount. -/
inductive ViewerEvent where
  | frame
  | windowResize (w h : ℚ)
  | unmountCleanup

/-- Dispatch one environment event. A window resize notification reaches
`onResize` only while the resize listener is registered. -/
def stepViewer (s : ViewerState) : ViewerEvent → Except String ViewerState
  | .frame => .ok (frameCallback s)
  | .windowResize w h =>
      if s.resizeListener then viewerResize w h s else .ok s
  | .unmountCleanup => teardown s

/-- Process an event list, propagating any exception. -/
def runViewer : ViewerState → List ViewerEvent → Except String ViewerState
  | s, [] => .ok s
  | s, e :: rest =>
      match stepViewer s e with
      | .error msg => .error msg
      | .ok s2 => runViewer s2 rest

/-- The state teardown leaves behind. -/
def tornDown (s : ViewerState) : ViewerState :=
  { s with rafPending := false, pointerListeners := false,
           resizeListener := false, canvasAttached := false,
           rendererDisposed := true }

/-- Teardown never throws and always yields `tornDown`: the second and later
calls are saved from `removeChild` by the `mount.contains` guard. -/
theorem teardown_eq (s : ViewerState) : teardown s = Except.ok (tornDown s) := by
  cases hc : s.canvasAttached <;>
    simp [teardown, removeCanvas, tornDown, hc]

/-- A quiescent state (no pending frame request, no resize listener) stays
quiescent under every event stream: no exception, and not one further frame
is rendered. -/
theorem runViewer_quiescent (evs : List ViewerEvent) :
    ∀ s : ViewerState, s.rafPending = false → s.resizeListener = false →
      ∃ s2, runViewer s evs = Except.ok s2 ∧
        s2.framesRendered = s.framesRendered := by
  induction evs with
  | nil => intro s _ _; exact ⟨s, rfl, rfl⟩
  | cons e rest ih =>
      intro s h1 h2
      cases e with
      | frame =>
          have hstep : stepViewer s .frame = Except.ok s := by
            simp [stepViewer, frameCallback, h1]
          obtain ⟨s2, hr, hf⟩ := ih s h1 h2
          exact ⟨s2, by simp [runViewer, hstep, hr], hf⟩
      | windowResize w h =>
          have hstep : stepViewer s (.windowResize w h) = Except.ok s := by
            simp [stepViewer, h2]
          obtain ⟨s2, hr, hf⟩ := ih s h1 h2
          exact ⟨s2, by simp [runViewer, hstep, hr], hf⟩
      | unmountCleanup =>
          obtain ⟨s2, hr, hf⟩ := ih (tornDown s) rfl rfl
          refine ⟨s2, ?_, ?_⟩
          · simp [runViewer, stepViewer, teardown_eq, hr]
          · rw [hf]; rfl

/-! ### C9 theorem -/

/-- C9. Teardown safety and idempotence: tearing the viewer down cancels the
pending frame request and removes all registered listeners without throwing;
a second teardown also returns without exception and changes nothing; a
post-teardown window-resize notification is ignored outright (the listener
is gone), and even invoking the resize handler directly throws nothing and
renders nothing; and under every stream of subsequent events not a single
further frame is rendered and no exception arises. -/
theorem teardown_safe (s : ViewerState) (w h : ℚ) (evs : List ViewerEvent) :
    (teardown s = Except.ok (tornDown s)) ∧
    ((tornDown s).rafPending = false ∧ (tornDown s).pointerListeners = false ∧
      (tornDown s).resizeListener = false) ∧
    (teardown (tornDown s) = Except.ok (tornDown s)) ∧
    (stepViewer (tornDown s) (.windowResize w h) = Except.ok (tornDown s)) ∧
    (∃ s3, viewerResize w h (tornDown s) = Except.ok s3 ∧
        s3.framesRendered = (tornDown s).framesRendered) ∧
    (∃ s2, runViewer (tornDown s) evs = Except.ok s2 ∧
        s2.framesRendered = (tornDown s).framesRendered) := by
  refine ⟨teardown_eq s, ⟨rfl, rfl, rfl⟩, ?_, rfl,
    ⟨_, rfl, rfl⟩, runViewer_quiescent evs (tornDown s) rfl rfl⟩
  rw [teardown_eq]
  rfl

end Aerosense
